import Mathlib

/-!
Verification development for the rfm12 radio driver (rfm12.cpp).

The driver's shared control state, packet buffers, interrupt-driven
protocol state machine, collision-avoidance scheduler and transmit
enqueue API are embedded as executable Lean definitions, translated
from src/rfm12lib/rfm12.cpp. Constants and struct layouts that live in
headers absent from the source tree (rfm12.h, rfm12_core.h) are
modelled from the specification where noted.
-/

namespace Rfm12

/-- Buffer status tags (STATUS_FREE / STATUS_OCCUPIED / STATUS_COMPLETE).
Modelled from the spec: the numeric values live in a header absent from
the source tree; only their distinctness matters. -/
inductive Status where
  | STATUS_FREE
  | STATUS_OCCUPIED
  | STATUS_COMPLETE
deriving DecidableEq, Repr

/-- Protocol states of the interrupt state machine
(STATE_RX_IDLE / STATE_RX_ACTIVE / STATE_TX). -/
inductive RfmState where
  | STATE_RX_IDLE
  | STATE_RX_ACTIVE
  | STATE_TX
deriving DecidableEq, Repr

/-- Transmit API return values (RFM12_TX_ERROR is the too-large error,
RFM12_TX_OCCUPIED the busy error, RFM12_TX_ENQUEUED the success value).
Modelled from the spec: the numeric values live in rfm12.h, absent from
the source tree; only their distinctness matters. -/
inductive TxRet where
  | RFM12_TX_ERROR
  | RFM12_TX_OCCUPIED
  | RFM12_TX_ENQUEUED
deriving DecidableEq, Repr

/-- One receive buffer slot (rf_rx_buffer_t): status tag, then the
contiguous byte area starting at the len field, as laid out in rfm12.h
(modelled from the spec: status, length byte, type byte, checksum byte,
payload storage). The interrupt handler writes the area through the
pointer hack (and rf_rx_buffers[i].len)[bytecount]. -/
structure RxSlot where
  status : Status
  len : Nat
  type : Nat
  checksum : Nat
  buffer : List Nat
deriving DecidableEq, Repr

/-- The transmit buffer (rf_tx_buffer_t): two sync bytes, length byte,
type byte, checksum byte, payload storage, laid out contiguously
(modelled from the spec: the struct declaration lives in rfm12.h). The
interrupt handler reads it through rf_tx_buffer.sync[bytecount]. -/
structure TxBuf where
  sync0 : Nat
  sync1 : Nat
  len : Nat
  type : Nat
  checksum : Nat
  buffer : List Nat
deriving DecidableEq, Repr

/-- Global control and status (rfm12_control_t ctrl). buffer_in_num and
buffer_out_num are the 0/1 receive-slot indices, embedded as Bool; the
C toggles them with an exclusive-or by 1, embedded as Bool.not. -/
structure Ctrl where
  rfm12_state : RfmState
  bytecount : Nat
  num_bytes : Nat
  buffer_in_num : Bool
  buffer_out_num : Bool
  txstate : Status
deriving DecidableEq, Repr

/-- The driver's whole mutable state: ctrl, the transmit buffer, the two
receive slots, the interrupt handler's static checksum accumulator and
the tick function's static channel_free_count. -/
structure RfmGlobal where
  ctrl : Ctrl
  rf_tx_buffer : TxBuf
  rf_rx_buffer0 : RxSlot
  rf_rx_buffer1 : RxSlot
  checksum : Nat
  channel_free_count : Nat
deriving DecidableEq, Repr

/-- Modelled from the spec: PACKET_OVERHEAD (rfm12_core.h, absent from
the source tree) is the header overhead added to the length byte when
computing num_bytes; the header is length, type, checksum, so it is 3. -/
def PACKET_OVERHEAD : Nat := 3

/-- The preamble byte filled into the data register by rfm12_tick
(the code comment: fill 2byte 0xAA preamble into data register). -/
def PREAMBLE : Nat := 0xaa

/-- rf_rx_buffers[b] accessor. -/
def rxSlot (g : RfmGlobal) (b : Bool) : RxSlot :=
  if b then g.rf_rx_buffer1 else g.rf_rx_buffer0

/-- rf_rx_buffers[b] updater. -/
def setRxSlot (g : RfmGlobal) (b : Bool) (s : RxSlot) : RfmGlobal :=
  if b then { g with rf_rx_buffer1 := s } else { g with rf_rx_buffer0 := s }

/-- One byte store through the receive-side pointer hack
(and rf_rx_buffers[i].len)[k] = d : offset 0 is the len field, 1 the
type field, 2 the checksum field, k+3 the payload byte buffer[k]. -/
def writeOffset (s : RxSlot) (k : Nat) (d : Nat) : RxSlot :=
  match k with
  | 0 => { s with len := d }
  | 1 => { s with type := d }
  | 2 => { s with checksum := d }
  | j + 3 => { s with buffer := s.buffer.set j d }

/-- One byte read through the transmit-side indexing
rf_tx_buffer.sync[k] over the contiguous struct: sync bytes, length,
type, checksum, then payload storage. -/
def txByte (t : TxBuf) (k : Nat) : Nat :=
  match k with
  | 0 => t.sync0
  | 1 => t.sync1
  | 2 => t.len
  | 3 => t.type
  | 4 => t.checksum
  | j + 5 => t.buffer.getD j 0

/-- One FFIT event of the interrupt handler (ISR(RFM12_INT_VECT) /
rfm12_poll): dispatch on ctrl.rfm12_state; data is the byte delivered by
rfm12_read in the receive branches (ignored in the transmit branch); the
returned list holds the data bytes written with RFM12_CMD_TX in the
transmit branch. The goto no_fifo_reset paths keep the state set by the
branch; the fall-through reset path sets STATE_RX_IDLE. -/
def isrStep (RX_SIZE : Nat) (g : RfmGlobal) (data : Nat) : RfmGlobal × List Nat :=
  match g.ctrl.rfm12_state with
  | .STATE_RX_IDLE =>
    let c1 := { g.ctrl with bytecount := 1, num_bytes := data + PACKET_OVERHEAD }
    let g1 := { g with ctrl := c1, checksum := data }
    if (rxSlot g1 c1.buffer_in_num).status = .STATUS_FREE then
      (setRxSlot { g1 with ctrl := { c1 with rfm12_state := .STATE_RX_ACTIVE } }
        c1.buffer_in_num { rxSlot g1 c1.buffer_in_num with len := data }, [])
    else
      ({ g1 with ctrl := { c1 with rfm12_state := .STATE_RX_IDLE } }, [])
  | .STATE_RX_ACTIVE =>
    if g.ctrl.bytecount < g.ctrl.num_bytes then
      let chk := g.checksum ^^^ data
      let g1 :=
        if g.ctrl.bytecount < RX_SIZE + 3 then
          setRxSlot g g.ctrl.buffer_in_num
            (writeOffset (rxSlot g g.ctrl.buffer_in_num) g.ctrl.bytecount data)
        else g
      let g2 := { g1 with checksum := chk }
      if g.ctrl.bytecount = 2 ∧ chk ≠ 0xff then
        ({ g2 with ctrl := { g2.ctrl with rfm12_state := .STATE_RX_IDLE } }, [])
      else
        ({ g2 with ctrl := { g2.ctrl with bytecount := g.ctrl.bytecount + 1 } }, [])
    else
      let s := rxSlot g g.ctrl.buffer_in_num
      let g1 := setRxSlot g g.ctrl.buffer_in_num { s with status := .STATUS_COMPLETE }
      ({ g1 with ctrl := { g1.ctrl with buffer_in_num := !g1.ctrl.buffer_in_num, rfm12_state := .STATE_RX_IDLE } }, [])
  | .STATE_TX =>
    if g.ctrl.bytecount < g.ctrl.num_bytes then
      ({ g with ctrl := { g.ctrl with bytecount := g.ctrl.bytecount + 1 } },
        [txByte g.rf_tx_buffer g.ctrl.bytecount])
    else
      ({ g with ctrl := { g.ctrl with txstate := .STATUS_FREE, rfm12_state := .STATE_RX_IDLE } }, [0xaa])

/-- Feed a list of received bytes into the state machine, one FFIT event
per byte. -/
def runRx (RX_SIZE : Nat) (g : RfmGlobal) : List Nat → RfmGlobal
  | [] => g
  | d :: ds => runRx RX_SIZE (isrStep RX_SIZE g d).1 ds

/-- Drive the interrupt handler while the machine stays in STATE_TX,
collecting every data byte it writes; fuel bounds the iteration. -/
def runTx (RX_SIZE : Nat) : Nat → RfmGlobal → RfmGlobal × List Nat
  | 0, g => (g, [])
  | fuel + 1, g =>
    match g.ctrl.rfm12_state with
    | .STATE_TX =>
      let p := isrStep RX_SIZE g 0
      let q := runTx RX_SIZE fuel p.1
      (q.1, p.2 ++ q.2)
    | _ => (g, [])

/-- rfm12_tick: the collision-avoidance scheduler. carrier is the
RFM12_STATUS_RSSI bit of the status word read from the chip;
CHANNEL_FREE_TIME is the configured countdown maximum (a header
constant, passed as a parameter). The returned list holds the data
bytes written with RFM12_CMD_TX (the two preamble bytes on arming). -/
def rfm12_tick (CHANNEL_FREE_TIME : Nat) (g : RfmGlobal) (carrier : Bool) :
    RfmGlobal × List Nat :=
  if g.ctrl.rfm12_state ≠ .STATE_RX_IDLE then (g, [])
  else if carrier then ({ g with channel_free_count := CHANNEL_FREE_TIME }, [])
  else if g.channel_free_count ≠ 0 then
    ({ g with channel_free_count := g.channel_free_count - 1 }, [])
  else if g.ctrl.txstate = .STATUS_OCCUPIED then
    ({ g with ctrl := { g.ctrl with num_bytes := g.rf_tx_buffer.len + 6, bytecount := 0, rfm12_state := .STATE_TX } },
      [PREAMBLE, PREAMBLE])
  else (g, [])

/-- rfm12_start_tx(type, length): write the packet header to the
transmit buffer and mark it occupied, unless it already is. -/
def rfm12_start_tx (g : RfmGlobal) (type len : Nat) : RfmGlobal × TxRet :=
  if g.ctrl.txstate ≠ .STATUS_FREE then (g, .RFM12_TX_OCCUPIED)
  else
    ({ g with rf_tx_buffer := { g.rf_tx_buffer with len := len, type := type, checksum := len ^^^ type ^^^ 0xff },
              ctrl := { g.ctrl with txstate := .STATUS_OCCUPIED } },
      .RFM12_TX_ENQUEUED)

/-- rfm12_tx(len, type, data): length check, busy check, memcpy of len
payload bytes into the transmit buffer, then rfm12_start_tx.
TX_SIZE is RFM12_TX_BUFFER_SIZE (a configuration header constant,
passed as a parameter). -/
def rfm12_tx (TX_SIZE : Nat) (g : RfmGlobal) (len type : Nat) (data : List Nat) :
    RfmGlobal × TxRet :=
  if len > TX_SIZE then (g, .RFM12_TX_ERROR)
  else if g.ctrl.txstate ≠ .STATUS_FREE then (g, .RFM12_TX_OCCUPIED)
  else
    rfm12_start_tx
      { g with rf_tx_buffer := { g.rf_tx_buffer with
          buffer := data.take len ++ g.rf_tx_buffer.buffer.drop len } }
      type len

/-- rfm12_rx_clear: mark the buffer_out slot free and switch
buffer_out to the other slot. -/
def rfm12_rx_clear (g : RfmGlobal) : RfmGlobal :=
  let g1 := setRxSlot g g.ctrl.buffer_out_num
    { rxSlot g g.ctrl.buffer_out_num with status := .STATUS_FREE }
  { g1 with ctrl := { g1.ctrl with buffer_out_num := !g1.ctrl.buffer_out_num } }

/-- Sequential byte stores into a list, one index after another: the
cumulative effect of the receive loop's payload writes. -/
def storeBytes (l : List Nat) (i : Nat) : List Nat → List Nat
  | [] => l
  | d :: ds => storeBytes (l.set i d) (i + 1) ds

/-- The byte sequence the Transmitting branch emits when r more struct
bytes remain before the completion event: the struct bytes from index
bc on, then the 0xaa flush byte written at completion. -/
def txEmitFrom (t : TxBuf) : Nat → Nat → List Nat
  | _, 0 => [0xaa]
  | bc, r + 1 => txByte t bc :: txEmitFrom t (bc + 1) r

/-- A sample transmit buffer for concrete instantiations. -/
def t0 : TxBuf := ⟨45, 212, 0, 0, 0, [0, 0, 0, 0]⟩

/-- A sample free receive slot for concrete instantiations. -/
def s0 : RxSlot := ⟨.STATUS_FREE, 0, 0, 0, [0, 0, 0, 0]⟩

/-- A sample quiescent global state: idle, transmit buffer free, both
receive slots free. -/
def gT : RfmGlobal := ⟨⟨.STATE_RX_IDLE, 0, 0, false, false, .STATUS_FREE⟩, t0, s0, s0, 0, 0⟩

/-- A sample global state whose transmit request is already occupied. -/
def gOcc : RfmGlobal := ⟨⟨.STATE_RX_IDLE, 0, 0, false, false, .STATUS_OCCUPIED⟩, t0, s0, s0, 0, 0⟩

/-- A sample global state whose buffer_in receive slot is not free. -/
def gBusy : RfmGlobal :=
  ⟨⟨.STATE_RX_IDLE, 0, 0, false, false, .STATUS_FREE⟩, t0,
    ⟨.STATUS_COMPLETE, 1, 2, 3, [9, 9, 9, 9]⟩, s0, 0, 0⟩

@[simp] lemma ctrl_setRxSlot (g : RfmGlobal) (b : Bool) (s : RxSlot) :
    (setRxSlot g b s).ctrl = g.ctrl := by
  cases b <;> simp [setRxSlot]

@[simp] lemma txbuf_setRxSlot (g : RfmGlobal) (b : Bool) (s : RxSlot) :
    (setRxSlot g b s).rf_tx_buffer = g.rf_tx_buffer := by
  cases b <;> simp [setRxSlot]

@[simp] lemma checksum_setRxSlot (g : RfmGlobal) (b : Bool) (s : RxSlot) :
    (setRxSlot g b s).checksum = g.checksum := by
  cases b <;> simp [setRxSlot]

@[simp] lemma cfc_setRxSlot (g : RfmGlobal) (b : Bool) (s : RxSlot) :
    (setRxSlot g b s).channel_free_count = g.channel_free_count := by
  cases b <;> simp [setRxSlot]

@[simp] lemma rxSlot_setRxSlot_same (g : RfmGlobal) (b : Bool) (s : RxSlot) :
    rxSlot (setRxSlot g b s) b = s := by
  cases b <;> simp [rxSlot, setRxSlot]

@[simp] lemma rxSlot_setRxSlot_other (g : RfmGlobal) (b : Bool) (s : RxSlot) :
    rxSlot (setRxSlot g b s) (!b) = rxSlot g (!b) := by
  cases b <;> simp [rxSlot, setRxSlot]

lemma setRxSlot_setRxSlot (g : RfmGlobal) (b : Bool) (s s' : RxSlot) :
    setRxSlot (setRxSlot g b s) b s' = setRxSlot g b s' := by
  cases b <;> simp [setRxSlot]

lemma rxSlot_ctrl_update (g : RfmGlobal) (c : Ctrl) (x : Nat) (b : Bool) :
    rxSlot { g with ctrl := c, checksum := x } b = rxSlot g b := by
  cases b <;> simp [rxSlot]

/-- STATE_RX_IDLE event with the buffer_in slot free: seed the counters
and the checksum, record the length into the slot, go to
STATE_RX_ACTIVE without resetting the fifo. -/
lemma isrStep_idle_free (RX_SIZE : Nat) (g : RfmGlobal) (d : Nat)
    (h1 : g.ctrl.rfm12_state = .STATE_RX_IDLE)
    (h2 : (rxSlot g g.ctrl.buffer_in_num).status = .STATUS_FREE) :
    isrStep RX_SIZE g d =
      (setRxSlot
        { g with ctrl := { g.ctrl with bytecount := 1, num_bytes := d + 3, rfm12_state := .STATE_RX_ACTIVE },
                 checksum := d }
        g.ctrl.buffer_in_num
        { rxSlot g g.ctrl.buffer_in_num with len := d }, []) := by
  cases hb : g.ctrl.buffer_in_num <;>
    simp [isrStep, h1, hb, PACKET_OVERHEAD, rxSlot, setRxSlot] <;>
    simp_all [rxSlot]

/-- STATE_RX_IDLE event with the buffer_in slot not free: the counters
and checksum are still seeded, but no slot is touched and the machine
falls through to the reset path, staying in STATE_RX_IDLE. -/
lemma isrStep_idle_full (RX_SIZE : Nat) (g : RfmGlobal) (d : Nat)
    (h1 : g.ctrl.rfm12_state = .STATE_RX_IDLE)
    (h2 : (rxSlot g g.ctrl.buffer_in_num).status ≠ .STATUS_FREE) :
    isrStep RX_SIZE g d =
      ({ g with ctrl := { g.ctrl with bytecount := 1, num_bytes := d + 3, rfm12_state := .STATE_RX_IDLE },
                checksum := d }, []) := by
  cases hb : g.ctrl.buffer_in_num <;>
    simp [isrStep, h1, hb, PACKET_OVERHEAD, rxSlot, setRxSlot] <;>
    simp_all [rxSlot]

/-- STATE_RX_ACTIVE mid-packet event whose byte neither fails the
header check nor falls beyond the storage bound: the byte is stored at
offset bytecount, folded into the checksum, and counted. -/
lemma isrStep_active_store (RX_SIZE : Nat) (g : RfmGlobal) (d : Nat)
    (h1 : g.ctrl.rfm12_state = .STATE_RX_ACTIVE)
    (h2 : g.ctrl.bytecount < g.ctrl.num_bytes)
    (h3 : g.ctrl.bytecount < RX_SIZE + 3)
    (h4 : ¬(g.ctrl.bytecount = 2 ∧ g.checksum ^^^ d ≠ 0xff)) :
    isrStep RX_SIZE g d =
      ({ setRxSlot g g.ctrl.buffer_in_num
           (writeOffset (rxSlot g g.ctrl.buffer_in_num) g.ctrl.bytecount d) with
         checksum := g.checksum ^^^ d,
         ctrl := { g.ctrl with bytecount := g.ctrl.bytecount + 1 } }, []) := by
  simp [isrStep, h1, h2, h3, h4]

/-- STATE_RX_ACTIVE mid-packet event whose byte lies at or beyond the
storage bound: counted and folded into the checksum, but not stored. -/
lemma isrStep_active_nostore (RX_SIZE : Nat) (g : RfmGlobal) (d : Nat)
    (h1 : g.ctrl.rfm12_state = .STATE_RX_ACTIVE)
    (h2 : g.ctrl.bytecount < g.ctrl.num_bytes)
    (h3 : ¬ g.ctrl.bytecount < RX_SIZE + 3) :
    isrStep RX_SIZE g d =
      ({ g with checksum := g.checksum ^^^ d,
                ctrl := { g.ctrl with bytecount := g.ctrl.bytecount + 1 } }, []) := by
  have h4 : ¬(g.ctrl.bytecount = 2 ∧ g.checksum ^^^ d ≠ 0xff) := by
    rintro ⟨h, -⟩; omega
  simp [isrStep, h1, h2, h3, h4]

/-- STATE_RX_ACTIVE event for the checksum byte when the header check
fails: the byte is still stored at offset 2 and folded into the
accumulator, but bytecount is not advanced and the machine falls
through to the reset path. -/
lemma isrStep_active_badsum (RX_SIZE : Nat) (g : RfmGlobal) (d : Nat)
    (h1 : g.ctrl.rfm12_state = .STATE_RX_ACTIVE)
    (h2 : g.ctrl.bytecount < g.ctrl.num_bytes)
    (h3 : g.ctrl.bytecount = 2)
    (h4 : g.checksum ^^^ d ≠ 0xff) :
    isrStep RX_SIZE g d =
      ({ setRxSlot g g.ctrl.buffer_in_num
           (writeOffset (rxSlot g g.ctrl.buffer_in_num) g.ctrl.bytecount d) with
         checksum := g.checksum ^^^ d,
         ctrl := { g.ctrl with rfm12_state := .STATE_RX_IDLE } }, []) := by
  have h3' : g.ctrl.bytecount < RX_SIZE + 3 := by omega
  simp [isrStep, h1, h2, h3, h3', h4]
  omega

/-- STATE_RX_ACTIVE event with bytecount at num_bytes: reception is
complete; the slot is marked complete, buffer_in flips, and the machine
returns to STATE_RX_IDLE through the reset path. -/
lemma isrStep_active_done (RX_SIZE : Nat) (g : RfmGlobal) (d : Nat)
    (h1 : g.ctrl.rfm12_state = .STATE_RX_ACTIVE)
    (h2 : ¬ g.ctrl.bytecount < g.ctrl.num_bytes) :
    isrStep RX_SIZE g d =
      ({ setRxSlot g g.ctrl.buffer_in_num
           { rxSlot g g.ctrl.buffer_in_num with status := .STATUS_COMPLETE } with
         ctrl := { g.ctrl with buffer_in_num := !g.ctrl.buffer_in_num, rfm12_state := .STATE_RX_IDLE } }, []) := by
  simp [isrStep, h1, h2]

/-- STATE_TX event with bytes still to send: the struct byte at index
bytecount goes out and bytecount advances. -/
lemma isrStep_tx_mid (RX_SIZE : Nat) (g : RfmGlobal) (d : Nat)
    (h1 : g.ctrl.rfm12_state = .STATE_TX)
    (h2 : g.ctrl.bytecount < g.ctrl.num_bytes) :
    isrStep RX_SIZE g d =
      ({ g with ctrl := { g.ctrl with bytecount := g.ctrl.bytecount + 1 } },
        [txByte g.rf_tx_buffer g.ctrl.bytecount]) := by
  simp [isrStep, h1, h2]

/-- STATE_TX event after the last byte: release the transmit buffer,
emit the flush byte and return to STATE_RX_IDLE. -/
lemma isrStep_tx_done (RX_SIZE : Nat) (g : RfmGlobal) (d : Nat)
    (h1 : g.ctrl.rfm12_state = .STATE_TX)
    (h2 : ¬ g.ctrl.bytecount < g.ctrl.num_bytes) :
    isrStep RX_SIZE g d =
      ({ g with ctrl := { g.ctrl with txstate := .STATUS_FREE, rfm12_state := .STATE_RX_IDLE } },
        [0xaa]) := by
  simp [isrStep, h1, h2]

lemma setRxSlot_rxSlot_self (g : RfmGlobal) (b : Bool) :
    setRxSlot g b (rxSlot g b) = g := by
  cases b <;> simp [setRxSlot, rxSlot]

lemma runTx_not_tx (RX_SIZE fuel : Nat) (g : RfmGlobal)
    (h : g.ctrl.rfm12_state ≠ .STATE_TX) : runTx RX_SIZE fuel g = (g, []) := by
  cases fuel with
  | zero => rfl
  | succ n =>
    cases hs : g.ctrl.rfm12_state
    · simp [runTx, hs]
    · simp [runTx, hs]
    · exact absurd hs h

lemma runTx_succ_tx (RX_SIZE n : Nat) (g : RfmGlobal)
    (h : g.ctrl.rfm12_state = .STATE_TX) :
    runTx RX_SIZE (n + 1) g =
      ((runTx RX_SIZE n (isrStep RX_SIZE g 0).1).1,
        (isrStep RX_SIZE g 0).2 ++ (runTx RX_SIZE n (isrStep RX_SIZE g 0).1).2) := by
  simp [runTx, h]

lemma runTx_drain (RX_SIZE : Nat) : ∀ (fuel : Nat) (g : RfmGlobal),
    g.ctrl.rfm12_state = .STATE_TX →
    g.ctrl.bytecount ≤ g.ctrl.num_bytes →
    g.ctrl.num_bytes - g.ctrl.bytecount < fuel →
    runTx RX_SIZE fuel g =
      ({ g with ctrl := { g.ctrl with bytecount := g.ctrl.num_bytes, txstate := .STATUS_FREE, rfm12_state := .STATE_RX_IDLE } },
        txEmitFrom g.rf_tx_buffer g.ctrl.bytecount (g.ctrl.num_bytes - g.ctrl.bytecount)) := by
  intro fuel
  induction fuel with
  | zero => intro g _ _ h3; omega
  | succ n ih =>
    intro g h1 h2 h3
    by_cases hlt : g.ctrl.bytecount < g.ctrl.num_bytes
    · have hstep := isrStep_tx_mid RX_SIZE g 0 h1 hlt
      have hrec := ih { g with ctrl := { g.ctrl with bytecount := g.ctrl.bytecount + 1 } }
        (by simp [h1]) (by simp; omega) (by simp; omega)
      have hsplit : g.ctrl.num_bytes - g.ctrl.bytecount =
          (g.ctrl.num_bytes - (g.ctrl.bytecount + 1)) + 1 := by omega
      rw [runTx_succ_tx RX_SIZE n g h1, hstep]
      dsimp only
      rw [hrec, hsplit]
      simp [txEmitFrom]
    · have hstep := isrStep_tx_done RX_SIZE g 0 h1 hlt
      rw [runTx_succ_tx RX_SIZE n g h1, hstep]
      dsimp only
      rw [runTx_not_tx RX_SIZE n _ (by simp)]
      have h0 : g.ctrl.num_bytes - g.ctrl.bytecount = 0 := by omega
      have hbe : g.ctrl.num_bytes = g.ctrl.bytecount := by omega
      rw [h0, hbe]
      simp [txEmitFrom]

lemma length_storeBytes : ∀ (ds l : List Nat) (i : Nat),
    (storeBytes l i ds).length = l.length := by
  intro ds
  induction ds with
  | nil => intro l i; rfl
  | cons d ds ih => intro l i; rw [storeBytes, ih]; simp

lemma getElem?_storeBytes : ∀ (ds l : List Nat) (i j : Nat),
    (storeBytes l i ds)[j]? =
      if i ≤ j ∧ j < i + ds.length ∧ j < l.length then ds[j - i]? else l[j]? := by
  intro ds
  induction ds with
  | nil =>
    intro l i j
    rw [storeBytes, if_neg (by simp; omega)]
  | cons d ds ih =>
    intro l i j
    rw [storeBytes, ih]
    simp only [List.length_set, List.length_cons, List.getElem?_set]
    split_ifs with hA hB hB hC hB hB
    all_goals try rfl
    all_goals try omega
    · have hji : j - i = (j - (i + 1)) + 1 := by omega
      rw [hji]; simp
    · have hji : j - i = 0 := by omega
      rw [hji]; simp
    · exact (List.getElem?_eq_none_iff.mpr (by omega)).symm

lemma storeBytes_take (ds l : List Nat) (h : ds.length ≤ l.length) :
    (storeBytes l 0 ds).take ds.length = ds := by
  apply List.ext_getElem?
  intro n
  by_cases hn : n < ds.length
  · rw [List.getElem?_take_of_lt hn, getElem?_storeBytes]
    rw [if_pos ⟨Nat.zero_le n, by omega, by omega⟩]
    simp
  · rw [List.getElem?_take_eq_none (by omega)]
    exact (List.getElem?_eq_none_iff.mpr (by omega)).symm

lemma runRx_cons (RX_SIZE : Nat) (g : RfmGlobal) (d : Nat) (ds : List Nat) :
    runRx RX_SIZE g (d :: ds) = runRx RX_SIZE (isrStep RX_SIZE g d).1 ds := rfl

/-- Payload phase of reception: from STATE_RX_ACTIVE with bytecount at
an offset i + 3 below both the packet end and the storage bound, a run
of payload bytes is stored one after another into the buffer_in slot,
counted, and folded into the checksum accumulator. -/
lemma runRx_payload (RX_SIZE : Nat) : ∀ (ds : List Nat) (g : RfmGlobal) (i : Nat),
    g.ctrl.rfm12_state = .STATE_RX_ACTIVE →
    g.ctrl.bytecount = i + 3 →
    i + 3 + ds.length ≤ g.ctrl.num_bytes →
    i + ds.length ≤ RX_SIZE →
    runRx RX_SIZE g ds =
      { setRxSlot g g.ctrl.buffer_in_num
          { rxSlot g g.ctrl.buffer_in_num with buffer := storeBytes (rxSlot g g.ctrl.buffer_in_num).buffer i ds } with
        ctrl := { g.ctrl with bytecount := i + 3 + ds.length },
        checksum := ds.foldl (fun a d => a ^^^ d) g.checksum } := by
  intro ds
  induction ds with
  | nil =>
    intro g i h1 h2 h3 h4
    simp only [runRx, storeBytes, List.foldl_nil, List.length_nil, Nat.add_zero]
    rw [← h2]
    rw [setRxSlot_rxSlot_self]
  | cons d ds ih =>
    intro g i h1 h2 h3 h4
    simp only [List.length_cons] at h3 h4
    have hstep := isrStep_active_store RX_SIZE g d h1 (by omega) (by omega) (by omega)
    rw [runRx_cons, hstep]
    dsimp only
    rw [h2]
    cases hb : g.ctrl.buffer_in_num
    · simp only [hb, setRxSlot, rxSlot, writeOffset, Bool.false_eq_true,
        ite_true, ite_false, if_true, if_false]
      refine (ih _ (i + 1) ?_ ?_ ?_ ?_).trans ?_
      · dsimp only; exact h1
      · dsimp only
      · dsimp only; omega
      · omega
      · simp [setRxSlot, rxSlot, storeBytes, List.foldl_cons]
        omega
    · simp only [hb, setRxSlot, rxSlot, writeOffset, Bool.false_eq_true,
        ite_true, ite_false, if_true, if_false]
      refine (ih _ (i + 1) ?_ ?_ ?_ ?_).trans ?_
      · dsimp only; exact h1
      · dsimp only
      · dsimp only; omega
      · omega
      · simp [setRxSlot, rxSlot, storeBytes, List.foldl_cons]
        omega

/-- C7: every call to rfm12_tx with a length strictly greater than the
transmit buffer capacity returns the too-large error RFM12_TX_ERROR and
performs no mutation at all: the whole driver state, in particular the
transmit buffer and txstate, is returned unchanged. -/
theorem C7_tx_too_large (TX_SIZE : Nat) (g : RfmGlobal) (len type : Nat)
    (data : List Nat) (h : len > TX_SIZE) :
    rfm12_tx TX_SIZE g len type data = (g, .RFM12_TX_ERROR) := by
  simp [rfm12_tx, h]

theorem C7_witness :
    5 > 4 ∧ rfm12_tx 4 gT 5 7 [1, 2, 3, 4, 5] = (gT, .RFM12_TX_ERROR) :=
  ⟨by decide, C7_tx_too_large 4 gT 5 7 [1, 2, 3, 4, 5] (by decide)⟩

/-- C10: rfm12_start_tx performs no length validation: for every length
whatsoever, if txstate is free it writes length, type and the derived
checksum into the transmit buffer header, marks txstate occupied and
returns the success value RFM12_TX_ENQUEUED; the too-large check exists
only in the payload-copying wrapper rfm12_tx. -/
theorem C10_start_tx_no_length_check (g : RfmGlobal) (type len : Nat)
    (h : g.ctrl.txstate = .STATUS_FREE) :
    rfm12_start_tx g type len =
      ({ g with rf_tx_buffer := { g.rf_tx_buffer with len := len, type := type, checksum := len ^^^ type ^^^ 0xff },
                ctrl := { g.ctrl with txstate := .STATUS_OCCUPIED } },
        .RFM12_TX_ENQUEUED) := by
  simp [rfm12_start_tx, h]

theorem C10_witness :
    gT.ctrl.txstate = .STATUS_FREE ∧
    rfm12_start_tx gT 7 300 =
      ({ gT with rf_tx_buffer := { gT.rf_tx_buffer with len := 300, type := 7, checksum := 300 ^^^ 7 ^^^ 0xff },
                 ctrl := { gT.ctrl with txstate := .STATUS_OCCUPIED } },
        .RFM12_TX_ENQUEUED) :=
  ⟨by decide, C10_start_tx_no_length_check gT 7 300 (by decide)⟩

/-- C6 counterexample: a call to rfm12_tx made while txstate is occupied
does not always return the busy value: with a length exceeding the
capacity the too-large check fires first and RFM12_TX_ERROR is returned
instead. -/
theorem C6_counterexample :
    gOcc.ctrl.txstate = .STATUS_OCCUPIED ∧
    (rfm12_tx 4 gOcc 5 7 [1, 2, 3, 4, 5]).2 ≠ .RFM12_TX_OCCUPIED := by
  decide

/-- C6 amended: every call to rfm12_tx made while txstate is occupied
whose length does not exceed the capacity returns the busy value
RFM12_TX_OCCUPIED and leaves the whole state, in particular the queued
packet's buffer contents and the occupied txstate, unchanged (a call
with an oversized length instead returns RFM12_TX_ERROR, also leaving
the state unchanged). -/
theorem C6_busy (TX_SIZE : Nat) (g : RfmGlobal) (len type : Nat)
    (data : List Nat) (h1 : g.ctrl.txstate = .STATUS_OCCUPIED)
    (h2 : len ≤ TX_SIZE) :
    rfm12_tx TX_SIZE g len type data = (g, .RFM12_TX_OCCUPIED) := by
  simp [rfm12_tx, h1, Nat.not_lt.mpr h2]

theorem C6_witness :
    gOcc.ctrl.txstate = .STATUS_OCCUPIED ∧ 3 ≤ 4 ∧
    rfm12_tx 4 gOcc 3 7 [1, 2, 3] = (gOcc, .RFM12_TX_OCCUPIED) :=
  ⟨by decide, by decide, C6_busy 4 gOcc 3 7 [1, 2, 3] (by decide) (by decide)⟩

/-- C4: when a length byte arrives in STATE_RX_IDLE while the slot
designated by buffer_in is not free, the handler writes no byte into
either receive slot and protocol state is STATE_RX_IDLE afterwards: the
incoming packet is discarded. -/
theorem C4_non_overwrite (RX_SIZE : Nat) (g : RfmGlobal) (d : Nat)
    (h1 : g.ctrl.rfm12_state = .STATE_RX_IDLE)
    (h2 : (rxSlot g g.ctrl.buffer_in_num).status ≠ .STATUS_FREE) :
    (isrStep RX_SIZE g d).1.rf_rx_buffer0 = g.rf_rx_buffer0 ∧
    (isrStep RX_SIZE g d).1.rf_rx_buffer1 = g.rf_rx_buffer1 ∧
    (isrStep RX_SIZE g d).1.ctrl.rfm12_state = .STATE_RX_IDLE := by
  rw [isrStep_idle_full RX_SIZE g d h1 h2]
  exact ⟨rfl, rfl, rfl⟩

theorem C4_witness :
    gBusy.ctrl.rfm12_state = .STATE_RX_IDLE ∧
    (rxSlot gBusy gBusy.ctrl.buffer_in_num).status ≠ .STATUS_FREE ∧
    ((isrStep 4 gBusy 3).1.rf_rx_buffer0 = gBusy.rf_rx_buffer0 ∧
     (isrStep 4 gBusy 3).1.rf_rx_buffer1 = gBusy.rf_rx_buffer1 ∧
     (isrStep 4 gBusy 3).1.ctrl.rfm12_state = .STATE_RX_IDLE) :=
  ⟨by decide, by decide, C4_non_overwrite 4 gBusy 3 (by decide) (by decide)⟩

/-- C8: during STATE_RX_ACTIVE, a mid-packet byte is stored into the
active slot at offset bytecount exactly when that offset lies below the
storage bound RX_SIZE + 3, and then only the buffer_in slot changes, by
the offset-bytecount write, with the other slot untouched; a byte whose
offset is at or beyond the bound is still counted (bytecount and the
checksum accumulator advance) but is stored nowhere: both slots are
unchanged, so no write ever lands outside the slot, whatever length
byte was advertised. -/
theorem C8_bounded_store (RX_SIZE : Nat) (g : RfmGlobal) (d : Nat)
    (h1 : g.ctrl.rfm12_state = .STATE_RX_ACTIVE)
    (h2 : g.ctrl.bytecount < g.ctrl.num_bytes) :
    (g.ctrl.bytecount < RX_SIZE + 3 →
       rxSlot (isrStep RX_SIZE g d).1 g.ctrl.buffer_in_num =
         writeOffset (rxSlot g g.ctrl.buffer_in_num) g.ctrl.bytecount d ∧
       rxSlot (isrStep RX_SIZE g d).1 (!g.ctrl.buffer_in_num) =
         rxSlot g (!g.ctrl.buffer_in_num)) ∧
    (RX_SIZE + 3 ≤ g.ctrl.bytecount →
       (isrStep RX_SIZE g d).1.rf_rx_buffer0 = g.rf_rx_buffer0 ∧
       (isrStep RX_SIZE g d).1.rf_rx_buffer1 = g.rf_rx_buffer1 ∧
       (isrStep RX_SIZE g d).1.ctrl.bytecount = g.ctrl.bytecount + 1 ∧
       (isrStep RX_SIZE g d).1.checksum = g.checksum ^^^ d) := by
  constructor
  · intro h3
    by_cases h4 : g.ctrl.bytecount = 2 ∧ g.checksum ^^^ d ≠ 0xff
    · rw [isrStep_active_badsum RX_SIZE g d h1 h2 h4.1 h4.2]
      cases hb : g.ctrl.buffer_in_num <;> simp [rxSlot, setRxSlot, hb]
    · rw [isrStep_active_store RX_SIZE g d h1 h2 h3 h4]
      cases hb : g.ctrl.buffer_in_num <;> simp [rxSlot, setRxSlot, hb]
  · intro h3
    rw [isrStep_active_nostore RX_SIZE g d h1 h2 (by omega)]
    exact ⟨rfl, rfl, rfl, rfl⟩

theorem C8_witness :
    gT.ctrl.rfm12_state = .STATE_RX_IDLE ∧
    (runRx 1 gT [3, 7, 3 ^^^ 7 ^^^ 0xff, 11]).ctrl.rfm12_state = .STATE_RX_ACTIVE ∧
    (runRx 1 gT [3, 7, 3 ^^^ 7 ^^^ 0xff, 11]).ctrl.bytecount <
      (runRx 1 gT [3, 7, 3 ^^^ 7 ^^^ 0xff, 11]).ctrl.num_bytes ∧
    ((1 + 3 ≤ (runRx 1 gT [3, 7, 3 ^^^ 7 ^^^ 0xff, 11]).ctrl.bytecount →
       (isrStep 1 (runRx 1 gT [3, 7, 3 ^^^ 7 ^^^ 0xff, 11]) 12).1.rf_rx_buffer0 =
         (runRx 1 gT [3, 7, 3 ^^^ 7 ^^^ 0xff, 11]).rf_rx_buffer0 ∧
       (isrStep 1 (runRx 1 gT [3, 7, 3 ^^^ 7 ^^^ 0xff, 11]) 12).1.rf_rx_buffer1 =
         (runRx 1 gT [3, 7, 3 ^^^ 7 ^^^ 0xff, 11]).rf_rx_buffer1 ∧
       (isrStep 1 (runRx 1 gT [3, 7, 3 ^^^ 7 ^^^ 0xff, 11]) 12).1.ctrl.bytecount =
         (runRx 1 gT [3, 7, 3 ^^^ 7 ^^^ 0xff, 11]).ctrl.bytecount + 1 ∧
       (isrStep 1 (runRx 1 gT [3, 7, 3 ^^^ 7 ^^^ 0xff, 11]) 12).1.checksum =
         (runRx 1 gT [3, 7, 3 ^^^ 7 ^^^ 0xff, 11]).checksum ^^^ 12)) := by
  refine ⟨by decide, by decide, by decide, ?_⟩
  exact (C8_bounded_store 1 (runRx 1 gT [3, 7, 3 ^^^ 7 ^^^ 0xff, 11]) 12
    (by decide) (by decide)).2

/-- C2: a header triple fed from STATE_RX_IDLE with the buffer_in slot
free is accepted, moving the machine to STATE_RX_ACTIVE with bytecount
3 ready to read payload bytes, exactly when length, type and checksum
xor to 0xff; on any mismatch the machine is back in STATE_RX_IDLE and
no payload byte has been stored: both slots' payload storage is
unchanged. -/
theorem C2_header_checksum (RX_SIZE : Nat) (g : RfmGlobal) (l t c : Nat)
    (h1 : g.ctrl.rfm12_state = .STATE_RX_IDLE)
    (h2 : (rxSlot g g.ctrl.buffer_in_num).status = .STATUS_FREE) :
    (l ^^^ t ^^^ c = 0xff →
       (runRx RX_SIZE g [l, t, c]).ctrl.rfm12_state = .STATE_RX_ACTIVE ∧
       (runRx RX_SIZE g [l, t, c]).ctrl.bytecount = 3) ∧
    (l ^^^ t ^^^ c ≠ 0xff →
       (runRx RX_SIZE g [l, t, c]).ctrl.rfm12_state = .STATE_RX_IDLE ∧
       (runRx RX_SIZE g [l, t, c]).rf_rx_buffer0.buffer = g.rf_rx_buffer0.buffer ∧
       (runRx RX_SIZE g [l, t, c]).rf_rx_buffer1.buffer = g.rf_rx_buffer1.buffer) := by
  have hA : 1 < l + 3 := by omega
  have hB : 2 < l + 3 := by omega
  have hC : (1 : Nat) < RX_SIZE + 3 := by omega
  have hD : (2 : Nat) < RX_SIZE + 3 := by omega
  cases hb : g.ctrl.buffer_in_num
  all_goals rw [hb] at h2
  all_goals simp only [rxSlot] at h2
  all_goals simp only [Bool.false_eq_true, if_true, if_false, ite_true, ite_false] at h2
  all_goals constructor
  all_goals intro hc
  all_goals simp [runRx, isrStep, h1, h2, hb, hA, hB, hC, hD, hc, rxSlot,
    setRxSlot, writeOffset, PACKET_OVERHEAD]

theorem C2_witness :
    gT.ctrl.rfm12_state = .STATE_RX_IDLE ∧
    (rxSlot gT gT.ctrl.buffer_in_num).status = .STATUS_FREE ∧
    ((3 ^^^ 7 ^^^ 42 = 0xff →
        (runRx 4 gT [3, 7, 42]).ctrl.rfm12_state = .STATE_RX_ACTIVE ∧
        (runRx 4 gT [3, 7, 42]).ctrl.bytecount = 3) ∧
     (3 ^^^ 7 ^^^ 42 ≠ 0xff →
        (runRx 4 gT [3, 7, 42]).ctrl.rfm12_state = .STATE_RX_IDLE ∧
        (runRx 4 gT [3, 7, 42]).rf_rx_buffer0.buffer = gT.rf_rx_buffer0.buffer ∧
        (runRx 4 gT [3, 7, 42]).rf_rx_buffer1.buffer = gT.rf_rx_buffer1.buffer)) :=
  ⟨by decide, by decide, C2_header_checksum 4 gT 3 7 42 (by decide) (by decide)⟩

/-- C9 counterexample: the mainline operation rfm12_tick does change
protocol state: from a quiescent state with a packet queued and the
countdown at zero, one tick with a clear channel moves rfm12_state from
STATE_RX_IDLE to STATE_TX (it also rewrites bytecount and num_bytes),
so the interrupt handler is not the only mutator of these fields. -/
theorem C9_counterexample :
    (rfm12_tick 2 gOcc false).1.ctrl.rfm12_state ≠ gOcc.ctrl.rfm12_state := by
  decide

/-- C9 amended: rfm12_rx_clear never changes rfm12_state, bytecount,
num_bytes, buffer_in_num or txstate; rfm12_start_tx and rfm12_tx never
change rfm12_state, bytecount, num_bytes or buffer_in_num and never
release txstate (if it is free afterwards it was free before);
rfm12_tick never changes buffer_in_num or txstate, and either leaves
rfm12_state, bytecount and num_bytes unchanged or performs exactly the
arming transition: from STATE_RX_IDLE with txstate occupied to
STATE_TX with bytecount 0 and num_bytes the queued length plus 6.
Every other mutation of these fields lives in the interrupt handler. -/
theorem C9_mainline_mutations (N TX_SIZE : Nat) (g : RfmGlobal)
    (carrier : Bool) (len type : Nat) (data : List Nat) :
    ((rfm12_rx_clear g).ctrl.rfm12_state = g.ctrl.rfm12_state ∧
     (rfm12_rx_clear g).ctrl.bytecount = g.ctrl.bytecount ∧
     (rfm12_rx_clear g).ctrl.num_bytes = g.ctrl.num_bytes ∧
     (rfm12_rx_clear g).ctrl.buffer_in_num = g.ctrl.buffer_in_num ∧
     (rfm12_rx_clear g).ctrl.txstate = g.ctrl.txstate) ∧
    ((rfm12_start_tx g type len).1.ctrl.rfm12_state = g.ctrl.rfm12_state ∧
     (rfm12_start_tx g type len).1.ctrl.bytecount = g.ctrl.bytecount ∧
     (rfm12_start_tx g type len).1.ctrl.num_bytes = g.ctrl.num_bytes ∧
     (rfm12_start_tx g type len).1.ctrl.buffer_in_num = g.ctrl.buffer_in_num ∧
     ((rfm12_start_tx g type len).1.ctrl.txstate = .STATUS_FREE →
        g.ctrl.txstate = .STATUS_FREE)) ∧
    ((rfm12_tx TX_SIZE g len type data).1.ctrl.rfm12_state = g.ctrl.rfm12_state ∧
     (rfm12_tx TX_SIZE g len type data).1.ctrl.bytecount = g.ctrl.bytecount ∧
     (rfm12_tx TX_SIZE g len type data).1.ctrl.num_bytes = g.ctrl.num_bytes ∧
     (rfm12_tx TX_SIZE g len type data).1.ctrl.buffer_in_num = g.ctrl.buffer_in_num ∧
     ((rfm12_tx TX_SIZE g len type data).1.ctrl.txstate = .STATUS_FREE →
        g.ctrl.txstate = .STATUS_FREE)) ∧
    ((rfm12_tick N g carrier).1.ctrl.buffer_in_num = g.ctrl.buffer_in_num ∧
     (rfm12_tick N g carrier).1.ctrl.txstate = g.ctrl.txstate ∧
     (((rfm12_tick N g carrier).1.ctrl.rfm12_state = g.ctrl.rfm12_state ∧
       (rfm12_tick N g carrier).1.ctrl.bytecount = g.ctrl.bytecount ∧
       (rfm12_tick N g carrier).1.ctrl.num_bytes = g.ctrl.num_bytes) ∨
      (g.ctrl.rfm12_state = .STATE_RX_IDLE ∧
       g.ctrl.txstate = .STATUS_OCCUPIED ∧
       (rfm12_tick N g carrier).1.ctrl.rfm12_state = .STATE_TX ∧
       (rfm12_tick N g carrier).1.ctrl.bytecount = 0 ∧
       (rfm12_tick N g carrier).1.ctrl.num_bytes = g.rf_tx_buffer.len + 6))) := by
  refine ⟨?_, ?_, ?_, ?_⟩
  · simp [rfm12_rx_clear]
  · by_cases h : g.ctrl.txstate = .STATUS_FREE <;>
      simp [rfm12_start_tx, h]
  · by_cases hl : len > TX_SIZE
    · simp [rfm12_tx, hl]
    · by_cases h : g.ctrl.txstate = .STATUS_FREE <;>
        simp [rfm12_tx, rfm12_start_tx, h, hl]
  · by_cases hs : g.ctrl.rfm12_state = .STATE_RX_IDLE
    · by_cases hcar : carrier
      · simp [rfm12_tick, hs, hcar]
      · by_cases hc : g.channel_free_count = 0
        · by_cases ht : g.ctrl.txstate = .STATUS_OCCUPIED
          · simp [rfm12_tick, hs, hcar, hc, ht]
          · simp [rfm12_tick, hs, hcar, hc, ht]
        · simp [rfm12_tick, hs, hcar, hc]
    · simp [rfm12_tick, hs]

lemma tick_busy_idle (N : Nat) (g : RfmGlobal)
    (h : g.ctrl.rfm12_state = .STATE_RX_IDLE) :
    rfm12_tick N g true = ({ g with channel_free_count := N }, []) := by
  simp [rfm12_tick, h]

lemma tick_true_preserves (N : Nat) (g : RfmGlobal) :
    (rfm12_tick N g true).1.ctrl.rfm12_state = g.ctrl.rfm12_state := by
  by_cases h : g.ctrl.rfm12_state = .STATE_RX_IDLE <;> simp [rfm12_tick, h]

lemma tick_clear_countdown (N : Nat) (g : RfmGlobal)
    (h1 : g.ctrl.rfm12_state = .STATE_RX_IDLE)
    (h2 : g.channel_free_count ≠ 0) :
    rfm12_tick N g false =
      ({ g with channel_free_count := g.channel_free_count - 1 }, []) := by
  simp [rfm12_tick, h1, h2]

lemma tick_arm (N : Nat) (g : RfmGlobal)
    (h1 : g.ctrl.rfm12_state = .STATE_RX_IDLE)
    (h2 : g.channel_free_count = 0)
    (h3 : g.ctrl.txstate = .STATUS_OCCUPIED) :
    rfm12_tick N g false =
      ({ g with ctrl := { g.ctrl with num_bytes := g.rf_tx_buffer.len + 6, bytecount := 0, rfm12_state := .STATE_TX } },
        [PREAMBLE, PREAMBLE]) := by
  simp [rfm12_tick, h1, h2, h3]

lemma tick_true_iterate (N : Nat) : ∀ (k : Nat) (g : RfmGlobal),
    ((fun s => (rfm12_tick N s true).1)^[k] g).ctrl.rfm12_state =
      g.ctrl.rfm12_state := by
  intro k
  induction k with
  | zero => intro g; rfl
  | succ n ih =>
    intro g
    rw [Function.iterate_succ_apply, ih, tick_true_preserves]

lemma tick_false_iterate (N : Nat) : ∀ (j : Nat) (g : RfmGlobal),
    g.ctrl.rfm12_state = .STATE_RX_IDLE →
    j ≤ g.channel_free_count →
    (fun s => (rfm12_tick N s false).1)^[j] g =
      { g with channel_free_count := g.channel_free_count - j } := by
  intro j
  induction j with
  | zero => intro g h1 h2; simp
  | succ n ih =>
    intro g h1 h2
    rw [Function.iterate_succ_apply]
    have hstep : (rfm12_tick N g false).1 =
        { g with channel_free_count := g.channel_free_count - 1 } := by
      rw [tick_clear_countdown N g h1 (by omega)]
    rw [hstep, ih _ (by simpa using h1) (by simp; omega)]
    simp
    omega

/-- C5: with the machine idle and a packet queued, a tick that reads the
carrier bit set never moves the protocol state, no matter how many such
ticks elapse; and after one carrier tick reloads the countdown to its
configured maximum N, clear ticks keep the state at STATE_RX_IDLE for
the first N of them (each merely decrementing the countdown) and the
very next clear tick, the (N+1)-th one, arms the transmission: the
state becomes STATE_TX then, not earlier and not later. -/
theorem C5_collision_scheduler (N k j : Nat) (g : RfmGlobal)
    (h1 : g.ctrl.rfm12_state = .STATE_RX_IDLE)
    (h2 : g.ctrl.txstate = .STATUS_OCCUPIED)
    (hj : j ≤ N) :
    ((fun s => (rfm12_tick N s true).1)^[k] g).ctrl.rfm12_state = .STATE_RX_IDLE ∧
    ((fun s => (rfm12_tick N s false).1)^[j] (rfm12_tick N g true).1).ctrl.rfm12_state = .STATE_RX_IDLE ∧
    ((fun s => (rfm12_tick N s false).1)^[N + 1] (rfm12_tick N g true).1).ctrl.rfm12_state = .STATE_TX := by
  have hbusy : (rfm12_tick N g true).1 = { g with channel_free_count := N } := by
    rw [tick_busy_idle N g h1]
  refine ⟨?_, ?_, ?_⟩
  · rw [tick_true_iterate, h1]
  · rw [hbusy, tick_false_iterate N j _ (by simpa using h1) (by simpa using hj)]
    simpa using h1
  · rw [hbusy, Function.iterate_succ_apply',
        tick_false_iterate N N _ (by simpa using h1) (by simp)]
    have harm := tick_arm N
      { g with channel_free_count := N - N }
      (by simpa using h1) (by simp) (by simpa using h2)
    rw [harm]

theorem C5_witness :
    gOcc.ctrl.rfm12_state = .STATE_RX_IDLE ∧
    gOcc.ctrl.txstate = .STATUS_OCCUPIED ∧ 2 ≤ 2 ∧
    (((fun s => (rfm12_tick 2 s true).1)^[5] gOcc).ctrl.rfm12_state = .STATE_RX_IDLE ∧
     ((fun s => (rfm12_tick 2 s false).1)^[2] (rfm12_tick 2 gOcc true).1).ctrl.rfm12_state = .STATE_RX_IDLE ∧
     ((fun s => (rfm12_tick 2 s false).1)^[2 + 1] (rfm12_tick 2 gOcc true).1).ctrl.rfm12_state = .STATE_TX) :=
  ⟨by decide, by decide, by decide,
    C5_collision_scheduler 2 5 2 gOcc (by decide) (by decide) (by decide)⟩

lemma rfm12_tx_success (TX_SIZE : Nat) (g : RfmGlobal) (len type : Nat)
    (data : List Nat) (h1 : g.ctrl.txstate = .STATUS_FREE) (h2 : len ≤ TX_SIZE) :
    rfm12_tx TX_SIZE g len type data =
      ({ g with rf_tx_buffer := { sync0 := g.rf_tx_buffer.sync0, sync1 := g.rf_tx_buffer.sync1, len := len, type := type, checksum := len ^^^ type ^^^ 0xff, buffer := data.take len ++ g.rf_tx_buffer.buffer.drop len },
                ctrl := { g.ctrl with txstate := .STATUS_OCCUPIED } },
        .RFM12_TX_ENQUEUED) := by
  simp [rfm12_tx, rfm12_start_tx, h1, Nat.not_lt.mpr h2]

lemma txEmitFrom_head (t : TxBuf) (r : Nat) :
    txEmitFrom t 0 (r + 6) =
      t.sync0 :: t.sync1 :: t.len :: t.type :: t.checksum :: txEmitFrom t 5 (r + 1) := by
  simp [txEmitFrom, txByte]

lemma txEmitFrom_payload : ∀ (r j : Nat) (t : TxBuf), j + r ≤ t.buffer.length →
    txEmitFrom t (j + 5) (r + 1) =
      (t.buffer.drop j).take r ++ [t.buffer.getD (j + r) 0, 0xaa] := by
  intro r
  induction r with
  | zero => intro j t h; simp [txEmitFrom, txByte]
  | succ n ih =>
    intro j t h
    have hj : j < t.buffer.length := by omega
    rw [txEmitFrom]
    rw [show j + 5 + 1 = (j + 1) + 5 by omega]
    rw [ih (j + 1) t (by omega)]
    rw [show txByte t (j + 5) = t.buffer.getD j 0 from rfl]
    rw [List.drop_eq_getElem_cons hj, List.take_succ_cons,
        List.getD_eq_getElem t.buffer 0 hj]
    rw [show j + 1 + n = j + (n + 1) by omega]
    simp

lemma txEmitFrom_payload0 (r : Nat) (t : TxBuf) (h : r ≤ t.buffer.length) :
    txEmitFrom t 5 (r + 1) = t.buffer.take r ++ [t.buffer.getD r 0, 0xaa] := by
  have h0 := txEmitFrom_payload r 0 t (by omega)
  simpa using h0

/-- From an idle state with the countdown elapsed and a packet queued,
one clear tick arms the transmitter, and driving the interrupt handler
to completion emits the preamble pair followed by the whole transmit
struct byte sequence and the flush byte. -/
lemma arm_and_drain (RX_SIZE N fuel : Nat) (g : RfmGlobal)
    (h1 : g.ctrl.rfm12_state = .STATE_RX_IDLE)
    (h2 : g.channel_free_count = 0)
    (h3 : g.ctrl.txstate = .STATUS_OCCUPIED)
    (hf : g.rf_tx_buffer.len + 6 < fuel) :
    (rfm12_tick N g false).2 ++ (runTx RX_SIZE fuel (rfm12_tick N g false).1).2 =
      [PREAMBLE, PREAMBLE] ++ txEmitFrom g.rf_tx_buffer 0 (g.rf_tx_buffer.len + 6) := by
  rw [tick_arm N g h1 h2 h3]
  dsimp only
  have hdrain := runTx_drain RX_SIZE fuel
    { g with ctrl := { g.ctrl with num_bytes := g.rf_tx_buffer.len + 6, bytecount := 0, rfm12_state := .STATE_TX } }
    rfl (by dsimp only; omega) (by dsimp only; omega)
  rw [hdrain]
  dsimp only
  simp [PREAMBLE]

/-- C1: enqueuing a packet whose length fits the transmit buffer and
then running the transmit path (the tick that arms the transmitter plus
the Transmitting branch of the interrupt handler, run to completion)
puts on the wire, after the two lead-in preamble bytes: the two sync
bytes, then the length byte, then the type byte, then the checksum byte
equal to length xor type xor 0xff, then exactly the length payload
bytes, in that order, with only trailer bytes (one struct trailer byte
and the 0xaa flush byte) after the payload. -/
theorem C1_wire_format (RX_SIZE TX_SIZE N : Nat) (g : RfmGlobal)
    (len type : Nat) (data : List Nat)
    (h1 : g.ctrl.txstate = .STATUS_FREE)
    (h2 : g.ctrl.rfm12_state = .STATE_RX_IDLE)
    (h3 : g.channel_free_count = 0)
    (h4 : len ≤ TX_SIZE)
    (h5 : len ≤ data.length) :
    ∃ trailer : Nat,
      (rfm12_tick N (rfm12_tx TX_SIZE g len type data).1 false).2 ++
        (runTx RX_SIZE (len + 7) (rfm12_tick N (rfm12_tx TX_SIZE g len type data).1 false).1).2 =
      [PREAMBLE, PREAMBLE, g.rf_tx_buffer.sync0, g.rf_tx_buffer.sync1, len, type, len ^^^ type ^^^ 0xff] ++
        data.take len ++ [trailer, 0xaa] := by
  rw [rfm12_tx_success TX_SIZE g len type data h1 h4]
  dsimp only
  have hcomp := arm_and_drain RX_SIZE N (len + 7)
    { g with rf_tx_buffer := { sync0 := g.rf_tx_buffer.sync0, sync1 := g.rf_tx_buffer.sync1, len := len, type := type, checksum := len ^^^ type ^^^ 0xff, buffer := data.take len ++ g.rf_tx_buffer.buffer.drop len },
             ctrl := { g.ctrl with txstate := .STATUS_OCCUPIED } }
    (by dsimp only; exact h2) (by dsimp only; exact h3) rfl (by dsimp only; omega)
  rw [hcomp]
  dsimp only
  rw [txEmitFrom_head]
  rw [txEmitFrom_payload0 len _ (by simp; omega)]
  refine ⟨(data.take len ++ g.rf_tx_buffer.buffer.drop len).getD len 0, ?_⟩
  rw [List.take_append_of_le_length (by simp; omega), List.take_take]
  simp [PREAMBLE]

theorem C1_witness :
    gT.ctrl.txstate = .STATUS_FREE ∧
    gT.ctrl.rfm12_state = .STATE_RX_IDLE ∧
    gT.channel_free_count = 0 ∧ 2 ≤ 4 ∧ 2 ≤ 2 ∧
    (∃ trailer : Nat,
      (rfm12_tick 5 (rfm12_tx 4 gT 2 9 [7, 8]).1 false).2 ++
        (runTx 4 (2 + 7) (rfm12_tick 5 (rfm12_tx 4 gT 2 9 [7, 8]).1 false).1).2 =
      [PREAMBLE, PREAMBLE, gT.rf_tx_buffer.sync0, gT.rf_tx_buffer.sync1, 2, 9, 2 ^^^ 9 ^^^ 0xff] ++
        [7, 8].take 2 ++ [trailer, 0xaa]) :=
  ⟨by decide, by decide, by decide, by decide, by decide,
    C1_wire_format 4 4 5 gT 2 9 [7, 8] (by decide) (by decide) (by decide)
      (by decide) (by decide)⟩

lemma rxSlot_ctrl_only (g : RfmGlobal) (c : Ctrl) (b : Bool) :
    rxSlot { g with ctrl := c } b = rxSlot g b := by
  cases b <;> simp [rxSlot]

lemma runRx_append (RX_SIZE : Nat) : ∀ (xs ys : List Nat) (g : RfmGlobal),
    runRx RX_SIZE g (xs ++ ys) = runRx RX_SIZE (runRx RX_SIZE g xs) ys := by
  intro xs
  induction xs with
  | nil => intro ys g; rfl
  | cons d ds ih => intro ys g; rw [List.cons_append, runRx_cons, runRx_cons, ih]

/-- Header phase of reception: from STATE_RX_IDLE with the buffer_in
slot free, a header whose checksum byte satisfies the xor contract is
read into the slot and the machine proceeds to STATE_RX_ACTIVE with
bytecount 3 and the accumulator at 0xff. -/
lemma runRx_header (RX_SIZE : Nat) (g : RfmGlobal) (l t : Nat)
    (h1 : g.ctrl.rfm12_state = .STATE_RX_IDLE)
    (h2 : (rxSlot g g.ctrl.buffer_in_num).status = .STATUS_FREE) :
    runRx RX_SIZE g [l, t, l ^^^ t ^^^ 0xff] =
      { setRxSlot g g.ctrl.buffer_in_num
          { rxSlot g g.ctrl.buffer_in_num with len := l, type := t, checksum := l ^^^ t ^^^ 0xff } with
        ctrl := { g.ctrl with rfm12_state := .STATE_RX_ACTIVE, bytecount := 3, num_bytes := l + 3 },
        checksum := 0xff } := by
  have hA : 1 < l + 3 := by omega
  have hB : 2 < l + 3 := by omega
  have hC : (1 : Nat) < RX_SIZE + 3 := by omega
  have hD : (2 : Nat) < RX_SIZE + 3 := by omega
  have hxor : l ^^^ t ^^^ (l ^^^ t ^^^ 0xff) = 0xff := by
    rw [← Nat.xor_assoc, Nat.xor_self, Nat.zero_xor]
  cases hb : g.ctrl.buffer_in_num
  all_goals rw [hb] at h2
  all_goals simp only [rxSlot] at h2
  all_goals simp only [Bool.false_eq_true, if_true, if_false, ite_true, ite_false] at h2
  all_goals simp [runRx, isrStep, h1, h2, hb, hA, hB, hC, hD, hxor, rxSlot,
    setRxSlot, writeOffset, PACKET_OVERHEAD]

/-- An STATE_RX_IDLE event never touches the receive slot that
buffer_in does not designate. -/
lemma isrStep_idle_other (RX_SIZE : Nat) (g : RfmGlobal) (d : Nat)
    (h1 : g.ctrl.rfm12_state = .STATE_RX_IDLE) :
    rxSlot (isrStep RX_SIZE g d).1 (!g.ctrl.buffer_in_num) =
      rxSlot g (!g.ctrl.buffer_in_num) := by
  by_cases h2 : (rxSlot g g.ctrl.buffer_in_num).status = .STATUS_FREE
  · rw [isrStep_idle_free RX_SIZE g d h1 h2]
    cases hb : g.ctrl.buffer_in_num <;> simp [rxSlot, setRxSlot, hb]
  · rw [isrStep_idle_full RX_SIZE g d h1 h2]
    cases hb : g.ctrl.buffer_in_num <;> simp [rxSlot, hb]

/-- Whole-packet reception: from STATE_RX_IDLE with the buffer_in slot
free, feeding a correctly checksummed header, the payload bytes and two
trailing bytes (the struct trailer and the flush byte) completes the
packet into that slot: status Complete, the header fields as sent, and
the payload stored at the front of the slot's storage. -/
lemma runRx_whole_packet (RX_SIZE : Nat) (h : RfmGlobal) (l t e e' : Nat)
    (p : List Nat)
    (hr1 : h.ctrl.rfm12_state = .STATE_RX_IDLE)
    (hr2 : (rxSlot h h.ctrl.buffer_in_num).status = .STATUS_FREE)
    (hp : p.length = l)
    (hcap : l ≤ RX_SIZE)
    (hbuf : l ≤ (rxSlot h h.ctrl.buffer_in_num).buffer.length) :
    rxSlot (runRx RX_SIZE h ([l, t, l ^^^ t ^^^ 0xff] ++ (p ++ [e, e'])))
        h.ctrl.buffer_in_num =
      { rxSlot h h.ctrl.buffer_in_num with status := .STATUS_COMPLETE, len := l, type := t, checksum := l ^^^ t ^^^ 0xff, buffer := storeBytes (rxSlot h h.ctrl.buffer_in_num).buffer 0 p } ∧
    (rxSlot (runRx RX_SIZE h ([l, t, l ^^^ t ^^^ 0xff] ++ (p ++ [e, e'])))
        h.ctrl.buffer_in_num).buffer.take l = p := by
  rw [runRx_append]
  generalize hG1 : runRx RX_SIZE h [l, t, l ^^^ t ^^^ 0xff] = g1
  have hg1 : g1 =
      { setRxSlot h h.ctrl.buffer_in_num
          { rxSlot h h.ctrl.buffer_in_num with len := l, type := t, checksum := l ^^^ t ^^^ 0xff } with
        ctrl := { h.ctrl with rfm12_state := .STATE_RX_ACTIVE, bytecount := 3, num_bytes := l + 3 },
        checksum := 0xff } := by
    rw [← hG1, runRx_header RX_SIZE h l t hr1 hr2]
  have q1 : g1.ctrl.rfm12_state = .STATE_RX_ACTIVE := by rw [hg1]
  have q2 : g1.ctrl.bytecount = 3 := by rw [hg1]
  have q3 : g1.ctrl.num_bytes = l + 3 := by rw [hg1]
  have q4 : g1.ctrl.buffer_in_num = h.ctrl.buffer_in_num := by rw [hg1]
  have q5 : rxSlot g1 h.ctrl.buffer_in_num =
      { rxSlot h h.ctrl.buffer_in_num with len := l, type := t, checksum := l ^^^ t ^^^ 0xff } := by
    rw [hg1, rxSlot_ctrl_update, rxSlot_setRxSlot_same]
  rw [runRx_append]
  generalize hG2 : runRx RX_SIZE g1 p = g2
  have hg2 : g2 =
      { setRxSlot g1 g1.ctrl.buffer_in_num
          { rxSlot g1 g1.ctrl.buffer_in_num with buffer := storeBytes (rxSlot g1 g1.ctrl.buffer_in_num).buffer 0 p } with
        ctrl := { g1.ctrl with bytecount := 0 + 3 + p.length },
        checksum := p.foldl (fun a d => a ^^^ d) g1.checksum } := by
    rw [← hG2, runRx_payload RX_SIZE p g1 0 q1 (by rw [q2]) (by rw [q3]; omega)
      (by omega)]
  have r1 : g2.ctrl.rfm12_state = .STATE_RX_ACTIVE := by rw [hg2]; dsimp only; exact q1
  have r2 : g2.ctrl.bytecount = 3 + l := by rw [hg2]; dsimp only; omega
  have r3 : g2.ctrl.num_bytes = l + 3 := by rw [hg2]; dsimp only; exact q3
  have r4 : g2.ctrl.buffer_in_num = h.ctrl.buffer_in_num := by
    rw [hg2]; dsimp only; exact q4
  have r5 : rxSlot g2 h.ctrl.buffer_in_num =
      { rxSlot h h.ctrl.buffer_in_num with len := l, type := t, checksum := l ^^^ t ^^^ 0xff, buffer := storeBytes (rxSlot h h.ctrl.buffer_in_num).buffer 0 p } := by
    rw [hg2, rxSlot_ctrl_update, q4, rxSlot_setRxSlot_same, q5]
  rw [runRx_cons, runRx_cons]
  have hdone := isrStep_active_done RX_SIZE g2 e r1 (by rw [r2, r3]; omega)
  generalize hG3 : (isrStep RX_SIZE g2 e).1 = g3
  have hg3 : g3 =
      { setRxSlot g2 g2.ctrl.buffer_in_num
          { rxSlot g2 g2.ctrl.buffer_in_num with status := .STATUS_COMPLETE } with
        ctrl := { g2.ctrl with buffer_in_num := !g2.ctrl.buffer_in_num, rfm12_state := .STATE_RX_IDLE } } := by
    rw [← hG3, hdone]
  have s1 : g3.ctrl.rfm12_state = .STATE_RX_IDLE := by rw [hg3]
  have s2 : g3.ctrl.buffer_in_num = !h.ctrl.buffer_in_num := by
    rw [hg3]; dsimp only; rw [r4]
  have s3 : rxSlot g3 h.ctrl.buffer_in_num =
      { rxSlot h h.ctrl.buffer_in_num with status := .STATUS_COMPLETE, len := l, type := t, checksum := l ^^^ t ^^^ 0xff, buffer := storeBytes (rxSlot h h.ctrl.buffer_in_num).buffer 0 p } := by
    rw [hg3, rxSlot_ctrl_only, r4, rxSlot_setRxSlot_same, r5]
  have hfin : rxSlot (isrStep RX_SIZE g3 e').1 h.ctrl.buffer_in_num =
      rxSlot g3 h.ctrl.buffer_in_num := by
    have hoth := isrStep_idle_other RX_SIZE g3 e' s1
    rw [s2, Bool.not_not] at hoth
    exact hoth
  rw [runRx, hfin, s3]
  refine ⟨rfl, ?_⟩
  dsimp only
  rw [← hp]
  exact storeBytes_take p (rxSlot h h.ctrl.buffer_in_num).buffer (by omega)

/-- C3: round trip. Enqueue a packet whose length fits both buffer
capacities, run the transmit path to completion, and feed the
transmitted byte sequence after the radio lead-in (the two preamble
bytes and the two sync bytes, which the receiving transceiver hardware
consumes to start its fifo, hence the drop of 4) into a receiver that
is in STATE_RX_IDLE with a free buffer_in slot of capacity RX_SIZE: the
slot ends Complete, holding the original length, type, the transmitted
checksum, and the payload bytes at the front of its storage, so its
first len stored bytes are exactly the enqueued payload. -/
theorem C3_roundtrip (RX_SIZE TX_SIZE N : Nat) (g h : RfmGlobal)
    (len type : Nat) (data : List Nat)
    (hg1 : g.ctrl.txstate = .STATUS_FREE)
    (hg2 : g.ctrl.rfm12_state = .STATE_RX_IDLE)
    (hg3 : g.channel_free_count = 0)
    (h4 : len ≤ TX_SIZE)
    (h5 : len ≤ data.length)
    (h6 : len ≤ RX_SIZE)
    (hr1 : h.ctrl.rfm12_state = .STATE_RX_IDLE)
    (hr2 : (rxSlot h h.ctrl.buffer_in_num).status = .STATUS_FREE)
    (hr3 : (rxSlot h h.ctrl.buffer_in_num).buffer.length = RX_SIZE) :
    rxSlot (runRx RX_SIZE h
        (((rfm12_tick N (rfm12_tx TX_SIZE g len type data).1 false).2 ++
          (runTx RX_SIZE (len + 7) (rfm12_tick N (rfm12_tx TX_SIZE g len type data).1 false).1).2).drop 4))
        h.ctrl.buffer_in_num =
      { rxSlot h h.ctrl.buffer_in_num with status := .STATUS_COMPLETE, len := len, type := type, checksum := len ^^^ type ^^^ 0xff, buffer := storeBytes (rxSlot h h.ctrl.buffer_in_num).buffer 0 (data.take len) } ∧
    (rxSlot (runRx RX_SIZE h
        (((rfm12_tick N (rfm12_tx TX_SIZE g len type data).1 false).2 ++
          (runTx RX_SIZE (len + 7) (rfm12_tick N (rfm12_tx TX_SIZE g len type data).1 false).1).2).drop 4))
        h.ctrl.buffer_in_num).buffer.take len = data.take len := by
  rw [rfm12_tx_success TX_SIZE g len type data hg1 h4]
  dsimp only
  have hcomp := arm_and_drain RX_SIZE N (len + 7)
    { g with rf_tx_buffer := { sync0 := g.rf_tx_buffer.sync0, sync1 := g.rf_tx_buffer.sync1, len := len, type := type, checksum := len ^^^ type ^^^ 0xff, buffer := data.take len ++ g.rf_tx_buffer.buffer.drop len },
             ctrl := { g.ctrl with txstate := .STATUS_OCCUPIED } }
    (by dsimp only; exact hg2) (by dsimp only; exact hg3) rfl (by dsimp only; omega)
  rw [hcomp]
  dsimp only
  rw [txEmitFrom_head]
  rw [txEmitFrom_payload0 len _ (by simp; omega)]
  rw [List.take_append_of_le_length (by simp; omega), List.take_take, Nat.min_self]
  have hpkt := runRx_whole_packet RX_SIZE h len type
    ((data.take len ++ g.rf_tx_buffer.buffer.drop len).getD len 0) 0xaa
    (data.take len) hr1 hr2 (by simp; omega) h6 (by omega)
  exact hpkt

theorem C3_witness :
    gT.ctrl.txstate = .STATUS_FREE ∧
    gT.ctrl.rfm12_state = .STATE_RX_IDLE ∧
    gT.channel_free_count = 0 ∧
    2 ≤ 4 ∧ 2 ≤ 2 ∧ 2 ≤ 4 ∧
    gT.ctrl.rfm12_state = .STATE_RX_IDLE ∧
    (rxSlot gT gT.ctrl.buffer_in_num).status = .STATUS_FREE ∧
    (rxSlot gT gT.ctrl.buffer_in_num).buffer.length = 4 ∧
    (rxSlot (runRx 4 gT
        (((rfm12_tick 5 (rfm12_tx 4 gT 2 9 [7, 8]).1 false).2 ++
          (runTx 4 (2 + 7) (rfm12_tick 5 (rfm12_tx 4 gT 2 9 [7, 8]).1 false).1).2).drop 4))
        gT.ctrl.buffer_in_num =
      { rxSlot gT gT.ctrl.buffer_in_num with status := .STATUS_COMPLETE, len := 2, type := 9, checksum := 2 ^^^ 9 ^^^ 0xff, buffer := storeBytes (rxSlot gT gT.ctrl.buffer_in_num).buffer 0 ([7, 8].take 2) } ∧
     (rxSlot (runRx 4 gT
        (((rfm12_tick 5 (rfm12_tx 4 gT 2 9 [7, 8]).1 false).2 ++
          (runTx 4 (2 + 7) (rfm12_tick 5 (rfm12_tx 4 gT 2 9 [7, 8]).1 false).1).2).drop 4))
        gT.ctrl.buffer_in_num).buffer.take 2 = [7, 8].take 2) :=
  ⟨by decide, by decide, by decide, by decide, by decide, by decide, by decide,
    by decide, by decide,
    C3_roundtrip 4 4 5 gT gT 2 9 [7, 8] (by decide) (by decide) (by decide)
      (by decide) (by decide) (by decide) (by decide) (by decide) (by decide)⟩

end Rfm12
